import Mathlib

/-!
Verification development for the translation-service repository.

The definitions below are a shallow embedding of the orchestration and
scoring layer: the MQM penalty table and score clamping
(src/quality/mqm_framework.py), the ISO 17100 compliance evaluator
(src/quality/iso_standards.py), the quality-mode pipeline and batch
coordinator (src/core/translation_service.py), and the per-agent fallback
payloads (src/agents/*.py).  Numeric scores are embedded as rationals.
-/

namespace TranslationSvc

/-- clamp x to the interval [lo, hi]. -/
def clampQ (lo hi x : ℚ) : ℚ := max lo (min hi x)

/-! ## MQM framework (src/quality/mqm_framework.py) -/

/-- Severity levels of an MQM error (models.py SeverityLevel). -/
inductive Severity where
  | minor
  | major
  | critical
deriving DecidableEq, Repr

/-- An MQM error as the aggregator consumes it: its classifying triple. -/
structure MQMError where
  category : String
  subcategory : String
  severity : Severity
deriving DecidableEq, Repr

/-- The penalty table `MQMFramework.error_categories` (mqm_framework.py
lines 13-35), keyed by category and subcategory; the value is the
(minor, major, critical) penalty triple. -/
def error_categories (category subcategory : String) : Option (ℚ × ℚ × ℚ) :=
  match category, subcategory with
  | "accuracy", "mistranslation" => some (-1, -5, -25)
  | "accuracy", "omission" => some (-1, -5, -25)
  | "accuracy", "addition" => some (-1, -5, -25)
  | "accuracy", "untranslated" => some (-1, -5, -25)
  | "fluency", "grammar" => some (-1/2, -2, -5)
  | "fluency", "spelling" => some (-1/4, -1, -5)
  | "fluency", "punctuation" => some (-1/10, -1/2, -2)
  | "fluency", "register" => some (-1/2, -2, -5)
  | "style", "awkward" => some (-1/4, -1, -3)
  | "style", "unnatural" => some (-1/2, -2, -5)
  | "style", "inconsistent_style" => some (-1/4, -1, -3)
  | "terminology", "inconsistent_term" => some (-1/2, -2, -10)
  | "terminology", "wrong_term" => some (-1, -5, -15)
  | _, _ => none

/-- Select the penalty for a severity from a (minor, major, critical) triple. -/
def severityPick : Severity → ℚ × ℚ × ℚ → ℚ
  | .minor, (m, _, _) => m
  | .major, (_, m, _) => m
  | .critical, (_, _, c) => c

/-- The fixed penalty of an error, looked up in `error_categories`;
a triple outside the table contributes 0. -/
def penalty (e : MQMError) : ℚ :=
  match error_categories e.category e.subcategory with
  | some t => severityPick e.severity t
  | none => 0

/-- Modelled from the spec: the Score Aggregator of spec section 4.2.  In the
source, `MQMFramework.analyze` delegates the aggregation arithmetic to the
external generation service (the prompt instructs: start at 100, subtract the
penalties of the table, clamp to [0, 100]); only the penalty table
`error_categories` and the final clamp live in repository code. -/
def mqm_total_score (E : List MQMError) : ℚ :=
  clampQ 0 100 (100 + (E.map penalty).sum)

/-- The score revalidation in `MQMFramework.analyze` (lines 135-138): a
returned total_score above 100 is stored as 100, below 0 as 0. -/
def validate_total_score (s : ℚ) : ℚ :=
  if s > 100 then 100 else if s < 0 then 0 else s

/-- Modelled from the spec: grade mapping of spec section 4.2, as instructed
by the prompt of `MQMFramework.analyze` (A 90-100, B 80-89, C 70-79,
D 60-69, F below 60); the grade itself is produced by the external service. -/
def mqm_grade_of (s : ℚ) : String :=
  if 90 ≤ s then "A"
  else if 80 ≤ s then "B"
  else if 70 ≤ s then "C"
  else if 60 ≤ s then "D"
  else "F"

/-- Modelled from the spec: industry compliance of spec section 4.2, as
instructed by the prompt of `MQMFramework.analyze` (score of at least 85
is compliant). -/
def industry_compliance_of (s : ℚ) : Bool := decide (85 ≤ s)

/-- Outcome of an external generation call: a parsed payload, or a failure
(exception or unparsable output). -/
inductive ExtResult (α : Type) where
  | ok (value : α)
  | fail (message : String)

/-- Status of a stage result. -/
inductive StageStatus where
  | ok
  | fallback
  | skipped
deriving DecidableEq, Repr

/-- An error entry of an MQM analysis payload as reported in the JSON
(models.py MQMError fields, with category and severity as raw strings). -/
structure MQMReportedError where
  category : String
  subcategory : String
  severity : String
  description : String
  penalty : ℚ
  location : String
deriving DecidableEq, Repr

/-- An MQM analysis payload (models.py MQMAnalysis, error summary elided
except for the terminology count consumed by the ISO evaluator). -/
structure MQMResult where
  total_score : ℚ
  word_count : ℕ
  errors : List MQMReportedError
  terminology_errors : ℤ
  mqm_grade : String
  industry_compliance : Bool
deriving DecidableEq, Repr

/-- The fallback payload of `MQMFramework.analyze` (lines 142-165): zero
score, a single critical system error of penalty -100, grade F,
non-compliant. -/
def mqm_fallback (message : String) (sourceWordCount : ℕ) : MQMResult :=
  { total_score := 0
    word_count := sourceWordCount
    errors := [{ category := "system"
                 subcategory := "analysis_failure"
                 severity := "critical"
                 description := "MQM analysis failed: " ++ message
                 penalty := -100
                 location := "system error" }]
    terminology_errors := 0
    mqm_grade := "F"
    industry_compliance := false }

/-- `MQMFramework.analyze` at the stage boundary: a successful external call
is stored with its total_score revalidated into [0, 100]; any failure
produces the fallback payload. -/
def mqm_analyze (ext : ExtResult MQMResult) (sourceWordCount : ℕ) :
    StageStatus × MQMResult :=
  match ext with
  | .ok r => (.ok, { r with total_score := validate_total_score r.total_score })
  | .fail m => (.fallback, mqm_fallback m sourceWordCount)

/-- The category values admitted by models.py MQMError (a Literal type). -/
def mqm_category_valid (c : String) : Bool :=
  c = "accuracy" || c = "fluency" || c = "style" || c = "terminology"

/-- The severity values admitted by models.py SeverityLevel. -/
def severity_string_valid (s : String) : Bool :=
  s = "minor" || s = "major" || s = "critical"

/-- The grade values admitted by models.py QualityGrade. -/
def grade_valid (g : String) : Bool :=
  g = "A" || g = "B" || g = "C" || g = "D" || g = "F"

/-- Schema of one MQM error entry per models.py MQMError. -/
def mqm_error_schema_ok (e : MQMReportedError) : Bool :=
  mqm_category_valid e.category && severity_string_valid e.severity

/-- Schema of an MQM analysis payload per models.py MQMAnalysis. -/
def mqm_analysis_schema_ok (r : MQMResult) : Bool :=
  decide (0 ≤ r.total_score) && decide (r.total_score ≤ 100)
    && r.errors.all mqm_error_schema_ok && grade_valid r.mqm_grade

/-! ## ISO 17100 compliance evaluator (src/quality/iso_standards.py)

The evaluator consumes the loosely-typed `results` mapping built by the
pipeline; each level at which the code distinguishes a missing key or uses
a `.get` default is embedded as an `Option` field. -/

/-- The grammar and vocabulary entries of a detailed-scores mapping. -/
structure QualityDetailedScores where
  grammar : Option ℚ
  vocabulary : Option ℚ
deriving DecidableEq, Repr

/-- The fields of a quality_assessment entry read by the ISO evaluator. -/
structure QualityAssessmentData where
  overall_score : Option ℚ
  detailed_scores : Option QualityDetailedScores
deriving DecidableEq, Repr

/-- The fields of a cultural_analysis entry read by the ISO evaluator. -/
structure CulturalAnalysisData where
  cultural_appropriateness : Option String
  target_audience_fit : Option String
deriving DecidableEq, Repr

/-- The fields of a refined_translation entry read by the ISO evaluator. -/
structure ReviewData where
  review_comments : Option (List String)
deriving DecidableEq, Repr

/-- The fields of an mqm_analysis entry read by the ISO evaluator. -/
structure MQMAnalysisData where
  total_score : Option ℚ
  terminology_errors : Option ℤ
deriving DecidableEq, Repr

/-- The `results` mapping passed to `ISOStandards.validate`: presence of each
key the evaluator tests, with the fields it reads. -/
structure TranslationResults where
  initial_translation : Option Unit
  cultural_analysis : Option CulturalAnalysisData
  refined_translation : Option ReviewData
  quality_assessment : Option QualityAssessmentData
  mqm_analysis : Option MQMAnalysisData
deriving DecidableEq, Repr

/-- results.get q_a.get detailed_scores.get grammar with default 0. -/
def grammar_score (R : TranslationResults) : ℚ :=
  (((R.quality_assessment.bind (·.detailed_scores)).bind (·.grammar)).getD 0)

/-- results.get q_a.get detailed_scores.get vocabulary with default 0. -/
def vocabulary_score (R : TranslationResults) : ℚ :=
  (((R.quality_assessment.bind (·.detailed_scores)).bind (·.vocabulary)).getD 0)

/-- results.get q_a.get overall_score with default 0. -/
def overall_quality (R : TranslationResults) : ℚ :=
  ((R.quality_assessment.bind (·.overall_score)).getD 0)

/-- results.get cultural_analysis.get cultural_appropriateness (no default). -/
def cultural_appropriateness (R : TranslationResults) : Option String :=
  R.cultural_analysis.bind (·.cultural_appropriateness)

/-- results.get cultural_analysis.get target_audience_fit (no default). -/
def target_audience_fit (R : TranslationResults) : Option String :=
  R.cultural_analysis.bind (·.target_audience_fit)

/-- len of results.get refined_translation.get review_comments, default []. -/
def review_comment_count (R : TranslationResults) : ℕ :=
  ((R.refined_translation.bind (·.review_comments)).getD []).length

/-- The count of the four agent keys present in the results mapping. -/
def agent_count (R : TranslationResults) : ℕ :=
  (if R.initial_translation.isSome then 1 else 0)
    + (if R.cultural_analysis.isSome then 1 else 0)
    + (if R.refined_translation.isSome then 1 else 0)
    + (if R.quality_assessment.isSome then 1 else 0)

/-- results.get mqm_analysis.get error_summary.get terminology_errors with
default 999. -/
def terminology_error_count (R : TranslationResults) : ℤ :=
  ((R.mqm_analysis.bind (·.terminology_errors)).getD 999)

/-- `ISOStandards._evaluate_translation_competence`. -/
def evaluate_translation_competence (R : TranslationResults) : ℚ :=
  min ((if 85 ≤ grammar_score R then (2/5 : ℚ) else 0)
    + (if cultural_appropriateness R = some "high"
          ∨ cultural_appropriateness R = some "medium" then (7/20 : ℚ) else 0)
    + (if 85 ≤ overall_quality R then (1/4 : ℚ) else 0)) 1

/-- `ISOStandards._evaluate_quality_assurance`. -/
def evaluate_quality_assurance (R : TranslationResults) : ℚ :=
  min ((if R.refined_translation.isSome then (1/2 : ℚ) else 0)
    + (if 80 ≤ ((R.mqm_analysis.bind (·.total_score)).getD 0) then (3/10 : ℚ) else 0)
    + (if R.quality_assessment.isSome then (1/5 : ℚ) else 0)) 1

/-- `ISOStandards._evaluate_project_management`. -/
def evaluate_project_management (R : TranslationResults) : ℚ :=
  min ((if 0 < review_comment_count R then (2/5 : ℚ) else 0)
    + (if 4 ≤ agent_count R then (3/10 : ℚ) else 0)
    + (if 85 ≤ overall_quality R then (3/10 : ℚ) else 0)) 1

/-- `ISOStandards._evaluate_technical_resources`. -/
def evaluate_technical_resources (R : TranslationResults) : ℚ :=
  min ((if R.initial_translation.isSome then (2/5 : ℚ) else 0)
    + (if 85 ≤ vocabulary_score R then (7/20 : ℚ) else 0)
    + (if terminology_error_count R ≤ 2 then (1/4 : ℚ) else 0)) 1

/-- `ISOStandards._evaluate_client_requirements`. -/
def evaluate_client_requirements (R : TranslationResults) : ℚ :=
  min ((if target_audience_fit R = some "excellent"
          ∨ target_audience_fit R = some "good" then (2/5 : ℚ) else 0)
    + (if cultural_appropriateness R = some "high" then (7/20 : ℚ) else 0)
    + (if 90 ≤ overall_quality R then (1/4 : ℚ)
       else if 85 ≤ overall_quality R then (3/20 : ℚ) else 0)) 1

/-- The five compliance areas of `ISOStandards.iso_requirements`. -/
inductive Area where
  | translation_competence
  | quality_assurance
  | project_management
  | technical_resources
  | client_requirements
deriving DecidableEq, Repr, Fintype

/-- Area weights from `ISOStandards.iso_requirements`. -/
def area_weight : Area → ℚ
  | .translation_competence => 1/4
  | .quality_assurance => 1/4
  | .project_management => 1/5
  | .technical_resources => 3/20
  | .client_requirements => 3/20

/-- Dispatch to the per-area evaluator of `ISOStandards`. -/
def area_score : Area → TranslationResults → ℚ
  | .translation_competence, R => evaluate_translation_competence R
  | .quality_assurance, R => evaluate_quality_assurance R
  | .project_management, R => evaluate_project_management R
  | .technical_resources, R => evaluate_technical_resources R
  | .client_requirements, R => evaluate_client_requirements R

/-- The evaluation order of `ISOStandards.validate`. -/
def area_order : List Area :=
  [.translation_competence, .quality_assurance, .project_management,
   .technical_resources, .client_requirements]

/-- The display names used as keys of compliance_scores in
`ISOStandards.validate`. -/
def area_display : Area → String
  | .translation_competence => "Translation Competence"
  | .quality_assurance => "Quality Assurance"
  | .project_management => "Project Management"
  | .technical_resources => "Technical Resources"
  | .client_requirements => "Client Requirements"

/-- overall_score of `ISOStandards.validate`: the weighted sum of the five
area scores, scaled by 100. -/
def iso_overall_score (R : TranslationResults) : ℚ :=
  ((area_order.map fun a => area_score a R * area_weight a).sum) * 100

/-- is_compliant of `ISOStandards.validate`: overall score at least 85. -/
def iso_is_compliant (R : TranslationResults) : Bool :=
  decide (85 ≤ iso_overall_score R)

/-- Per-area compliance flag of `ISOStandards.validate`: score at least 0.85. -/
def iso_area_compliant (a : Area) (R : TranslationResults) : Bool :=
  decide (17/20 ≤ area_score a R)

/-- str.lower as used on the area display names, embedded structurally
character by character. -/
def lowerString (s : String) : String := ⟨s.data.map Char.toLower⟩

/-- The recommendation text emitted for a non-compliant area. -/
def recommendation (a : Area) : String :=
  "Improve " ++ lowerString (area_display a) ++ " to meet ISO 17100:2015 standards"

/-- The recommendations list of `ISOStandards.validate`: one entry per area
whose score is below 0.85, in evaluation order. -/
def iso_recommendations (R : TranslationResults) : List String :=
  (area_order.filter fun a => decide (area_score a R < 17/20)).map recommendation

/-- The payload returned by `ISOStandards.validate` (fixed iso_standard and
assessment_date strings elided). -/
structure ISOPayload where
  compliant : Bool
  score : ℚ
  compliance_areas : List (String × Bool)
  detailed_scores : List (String × ℚ)
  recommendations : List String
deriving DecidableEq, Repr

/-- `ISOStandards.validate` assembled from the pieces above. -/
def iso_validate (R : TranslationResults) : ISOPayload :=
  { compliant := iso_is_compliant R
    score := iso_overall_score R
    compliance_areas := area_order.map fun a => (area_display a, iso_area_compliant a R)
    detailed_scores := area_order.map fun a => (area_display a, area_score a R)
    recommendations := iso_recommendations R }

/-! ## Agent stage boundaries (src/agents/*.py)

Each agent wraps its external generation call in a try/except; the except
branch returns a fixed fallback payload.  We embed each agent as a function
of the external call outcome, returning the stage status together with the
payload the pipeline stores. -/

/-- An initial-translation payload (models.py TranslationResult). -/
structure TranslatorPayload where
  translation : String
  confidence : ℚ
  translation_notes : List String
  difficulty_level : String
  key_decisions : List String
deriving DecidableEq, Repr

/-- The fallback payload of `TranslatorAgent.translate` (lines 123-130). -/
def translator_fallback (message : String) : TranslatorPayload :=
  { translation := "Translation failed: " ++ message
    confidence := 0
    translation_notes := ["Error in translation process"]
    difficulty_level := "error"
    key_decisions := [] }

/-- `TranslatorAgent.translate` at the stage boundary. -/
def translator_translate (ext : ExtResult TranslatorPayload) :
    StageStatus × TranslatorPayload :=
  match ext with
  | .ok r => (.ok, r)
  | .fail m => (.fallback, translator_fallback m)

/-- A cultural-analysis payload (models.py CulturalAnalysis). -/
structure CulturalPayload where
  cultural_appropriateness : String
  adaptations : List String
  regional_notes : List String
  register_recommendations : String
  localization_suggestions : List String
  cultural_risks : List String
  target_audience_fit : String
deriving DecidableEq, Repr

/-- The fallback payload of `CulturalAdvisor.analyze` (lines 139-148). -/
def cultural_fallback (message : String) : CulturalPayload :=
  { cultural_appropriateness := "low"
    adaptations := ["Cultural analysis failed: " ++ message]
    regional_notes := []
    register_recommendations := "neutral"
    localization_suggestions := []
    cultural_risks := ["Unable to assess cultural context"]
    target_audience_fit := "poor" }

/-- `CulturalAdvisor.analyze` at the stage boundary. -/
def cultural_analyze (ext : ExtResult CulturalPayload) :
    StageStatus × CulturalPayload :=
  match ext with
  | .ok r => (.ok, r)
  | .fail m => (.fallback, cultural_fallback m)

/-- A review payload (models.py ReviewResult). -/
structure ReviewPayload where
  final_translation : String
  review_comments : List String
  changes_made : List String
  confidence_improvement : ℚ
  quality_grade : String
deriving DecidableEq, Repr

/-- The fallback payload of `ReviewerAgent.review` (lines 110-116): the
initial translation is passed through unchanged. -/
def reviewer_fallback (initial_translation message : String) : ReviewPayload :=
  { final_translation := initial_translation
    review_comments := ["Review failed: " ++ message]
    changes_made := []
    confidence_improvement := 0
    quality_grade := "F" }

/-- `ReviewerAgent.review` at the stage boundary; `initial_translation` is
the argument the agent received. -/
def reviewer_review (initial_translation : String)
    (ext : ExtResult ReviewPayload) : StageStatus × ReviewPayload :=
  match ext with
  | .ok r => (.ok, r)
  | .fail m => (.fallback, reviewer_fallback initial_translation m)

/-- The six detailed quality dimensions (models.py QualityScores). -/
structure QualityScoresFull where
  fluency : ℚ
  grammar : ℚ
  accuracy : ℚ
  naturalness : ℚ
  vocabulary : ℚ
  colloquial_usage : ℚ
deriving DecidableEq, Repr

/-- A quality-assessment payload (models.py QualityAssessment). -/
structure QualityPayload where
  overall_score : ℚ
  detailed_scores : QualityScoresFull
  assessment_notes : List String
  strengths : List String
  areas_for_improvement : List String
  industry_benchmark_met : Bool
  error_count : ℤ
  errors_per_1000_words : ℚ
deriving DecidableEq, Repr

/-- The fallback payload of `QualityAssessor.assess` (lines 93-110). -/
def assessor_fallback (message : String) : QualityPayload :=
  { overall_score := 0
    detailed_scores := ⟨0, 0, 0, 0, 0, 0⟩
    assessment_notes := ["Assessment failed: " ++ message]
    strengths := []
    areas_for_improvement := ["Quality assessment system error"]
    industry_benchmark_met := false
    error_count := 999
    errors_per_1000_words := 999 }

/-- `QualityAssessor.assess` at the stage boundary. -/
def assessor_assess (ext : ExtResult QualityPayload) :
    StageStatus × QualityPayload :=
  match ext with
  | .ok r => (.ok, r)
  | .fail m => (.fallback, assessor_fallback m)

/-- Schema of an initial-translation payload per models.py
TranslationResult: confidence in [0, 100] and a declared difficulty level. -/
def translator_schema_ok (p : TranslatorPayload) : Bool :=
  decide (0 ≤ p.confidence) && decide (p.confidence ≤ 100)
    && (p.difficulty_level = "easy" || p.difficulty_level = "medium"
        || p.difficulty_level = "hard" || p.difficulty_level = "error")

/-- Schema of a cultural-analysis payload per models.py CulturalAnalysis. -/
def cultural_schema_ok (p : CulturalPayload) : Bool :=
  (p.cultural_appropriateness = "high" || p.cultural_appropriateness = "medium"
      || p.cultural_appropriateness = "low")
    && (p.register_recommendations = "formal"
        || p.register_recommendations = "informal"
        || p.register_recommendations = "neutral")
    && (p.target_audience_fit = "excellent" || p.target_audience_fit = "good"
        || p.target_audience_fit = "fair" || p.target_audience_fit = "poor")

/-- Schema of a review payload per models.py ReviewResult. -/
def reviewer_schema_ok (p : ReviewPayload) : Bool :=
  decide (0 ≤ p.confidence_improvement) && decide (p.confidence_improvement ≤ 100)
    && grade_valid p.quality_grade

/-- Schema of a quality-assessment payload per models.py QualityAssessment. -/
def assessor_schema_ok (p : QualityPayload) : Bool :=
  decide (0 ≤ p.overall_score) && decide (p.overall_score ≤ 100)
    && decide (0 ≤ p.detailed_scores.fluency) && decide (p.detailed_scores.fluency ≤ 100)
    && decide (0 ≤ p.detailed_scores.grammar) && decide (p.detailed_scores.grammar ≤ 100)
    && decide (0 ≤ p.detailed_scores.accuracy) && decide (p.detailed_scores.accuracy ≤ 100)
    && decide (0 ≤ p.detailed_scores.naturalness) && decide (p.detailed_scores.naturalness ≤ 100)
    && decide (0 ≤ p.detailed_scores.vocabulary) && decide (p.detailed_scores.vocabulary ≤ 100)
    && decide (0 ≤ p.detailed_scores.colloquial_usage)
    && decide (p.detailed_scores.colloquial_usage ≤ 100)
    && decide (0 ≤ p.error_count) && decide (0 ≤ p.errors_per_1000_words)

/-! ## Pipeline orchestrator (src/core/translation_service.py) -/

/-- The quality modes of the job submission contract. -/
inductive QualityMode where
  | fast
  | balanced
  | quality
deriving DecidableEq, Repr

/-- A translation request.  The fields source_text, target_language,
include_cultural_analysis, include_mqm_analysis and include_iso_compliance
are declared in models.py TranslationRequest.  Modelled from the spec: the
quality_mode, include_review and include_quality_assessment fields of the
job submission contract (spec section 6), which `TranslationService.translate`
reads and writes but which are missing from the TranslationRequest
declaration in src/api/models.py. -/
structure TranslationRequest where
  source_text : String
  target_language : String
  quality_mode : QualityMode
  include_cultural_analysis : Bool
  include_review : Bool
  include_quality_assessment : Bool
  include_mqm_analysis : Bool
  include_iso_compliance : Bool
deriving DecidableEq, Repr

/-- The quality-mode override at the start of `TranslationService.translate`
(lines 49-67).  The code mutates the caller's request object in place; the
mutation is embedded as the resulting request value. -/
def override_flags (r : TranslationRequest) : TranslationRequest :=
  match r.quality_mode with
  | .fast =>
    { r with include_review := true
             include_cultural_analysis := false
             include_quality_assessment := false
             include_mqm_analysis := false
             include_iso_compliance := false }
  | .balanced =>
    { r with include_review := true
             include_cultural_analysis := true
             include_quality_assessment := true
             include_mqm_analysis := false
             include_iso_compliance := false }
  | .quality => r

/-- Word count of the source text as computed by len of str.split in the
MQM fallback path. -/
def python_word_count (s : String) : ℕ :=
  ((s.split Char.isWhitespace).filter (fun t => ! t.isEmpty)).length

/-- The outcomes of the external generation calls of the five delegating
stages (the ISO evaluator is pure and makes no external call). -/
structure AgentOutcomes where
  translator : ExtResult TranslatorPayload
  cultural : ExtResult CulturalPayload
  reviewer : ExtResult ReviewPayload
  assessor : ExtResult QualityPayload
  mqm : ExtResult MQMResult

/-- A translation response (models.py TranslationResponse; request id,
processing time and timestamp elided as nondeterministic bookkeeping). -/
structure TranslationResponse where
  source_text : String
  target_language : String
  initial_translation : TranslatorPayload
  cultural_analysis : Option CulturalPayload
  refined_translation : Option ReviewPayload
  quality_assessment : Option QualityPayload
  mqm_analysis : Option MQMResult
  iso_compliance : Option ISOPayload
  final_translation : Option Unit
deriving DecidableEq, Repr

/-- `TranslationService.translate` (the mode-aware pipeline): flag override,
then initial translation, conditional cultural analysis, review (given the
initial translation), quality assessment of the best available text, and
finally MQM and ISO.  The results mapping handed to the ISO evaluator never
contains the mqm_analysis key: the code inserts it only after the parallel
phase has been gathered.  The final_translation field (seventh agent) is
never produced by this pipeline. -/
def service_translate (req : TranslationRequest) (o : AgentOutcomes) :
    TranslationResponse :=
  let r := override_flags req
  let initial := (translator_translate o.translator).2
  let cultural :=
    if r.include_cultural_analysis then some (cultural_analyze o.cultural).2 else none
  let review :=
    if r.include_review then some (reviewer_review initial.translation o.reviewer).2
    else none
  let qa :=
    if r.include_quality_assessment then some (assessor_assess o.assessor).2 else none
  let mqm :=
    if r.include_mqm_analysis && qa.isSome then
      some (mqm_analyze o.mqm (python_word_count req.source_text)).2
    else none
  let resultsMap : TranslationResults :=
    { initial_translation := some ()
      cultural_analysis := cultural.map fun c =>
        { cultural_appropriateness := some c.cultural_appropriateness
          target_audience_fit := some c.target_audience_fit }
      refined_translation := review.map fun rv =>
        { review_comments := some rv.review_comments }
      quality_assessment := qa.map fun q =>
        { overall_score := some q.overall_score
          detailed_scores := some { grammar := some q.detailed_scores.grammar
                                    vocabulary := some q.detailed_scores.vocabulary } }
      mqm_analysis := none }
  let iso := if r.include_iso_compliance then some (iso_validate resultsMap) else none
  { source_text := req.source_text
    target_language := req.target_language
    initial_translation := initial
    cultural_analysis := cultural
    refined_translation := review
    quality_assessment := qa
    mqm_analysis := mqm
    iso_compliance := iso
    final_translation := none }

/-! ## Batch coordinator (src/core/translation_service.py, translate_batch) -/

/-- Whether a gathered per-job outcome is an exception. -/
def job_failed {α β : Type} : Except α β → Bool
  | .error _ => true
  | .ok _ => false

/-- One result slot of `translate_batch`: a job whose orchestration raised is
replaced by a degraded response whose translation is an error marker with
confidence 0 (lines 252-272). -/
def batch_slot (req : TranslationRequest)
    (outcome : Except String TranslationResponse) : TranslationResponse :=
  match outcome with
  | .ok resp => resp
  | .error message =>
    { source_text := req.source_text
      target_language := req.target_language
      initial_translation :=
        { translation := "Translation failed: " ++ message
          confidence := 0
          translation_notes := ["Error in translation process"]
          difficulty_level := "error"
          key_decisions := [] }
      cultural_analysis := none
      refined_translation := none
      quality_assessment := none
      mqm_analysis := none
      iso_compliance := none
      final_translation := none }

/-- A batch response (models.py BatchTranslationResponse, bookkeeping
fields elided). -/
structure BatchResponse where
  results : List TranslationResponse
  success_count : ℕ
  error_count : ℕ
deriving Repr

/-- `TranslationService.translate_batch`: each job is paired with the outcome
of its orchestration (a response, or the exception it raised); failed jobs
are converted to degraded slots in place and counted. -/
def translate_batch
    (jobs : List (TranslationRequest × Except String TranslationResponse)) :
    BatchResponse :=
  let errs := (jobs.filter fun j => job_failed j.2).length
  { results := jobs.map fun j => batch_slot j.1 j.2
    success_count := jobs.length - errs
    error_count := errs }

/-! ## Concrete sample inputs used by witnesses and counterexamples -/

/-- A results mapping in which every key is absent (all area predicates
false). -/
def emptyResults : TranslationResults :=
  { initial_translation := none, cultural_analysis := none,
    refined_translation := none, quality_assessment := none,
    mqm_analysis := none }

/-- A sample successful initial-translation payload. -/
def sampleTranslatorPayload : TranslatorPayload :=
  { translation := "Hej hej", confidence := 90, translation_notes := [],
    difficulty_level := "easy", key_decisions := [] }

/-- A sample successful cultural-analysis payload. -/
def sampleCulturalPayload : CulturalPayload :=
  { cultural_appropriateness := "high", adaptations := [],
    regional_notes := [], register_recommendations := "neutral",
    localization_suggestions := [], cultural_risks := [],
    target_audience_fit := "good" }

/-- A sample successful review payload. -/
def sampleReviewPayload : ReviewPayload :=
  { final_translation := "Hej hej", review_comments := ["fine"],
    changes_made := [], confidence_improvement := 5, quality_grade := "A" }

/-- A sample successful quality-assessment payload. -/
def sampleQualityPayload : QualityPayload :=
  { overall_score := 92, detailed_scores := ⟨92, 92, 92, 92, 92, 92⟩,
    assessment_notes := [], strengths := [], areas_for_improvement := [],
    industry_benchmark_met := true, error_count := 0,
    errors_per_1000_words := 0 }

/-- A sample successful MQM payload. -/
def sampleMQMResult : MQMResult :=
  { total_score := 95, word_count := 2, errors := [],
    terminology_errors := 0, mqm_grade := "A", industry_compliance := true }

/-- External outcomes in which every generation call succeeds. -/
def oracleAllOk : AgentOutcomes where
  translator := .ok sampleTranslatorPayload
  cultural := .ok sampleCulturalPayload
  reviewer := .ok sampleReviewPayload
  assessor := .ok sampleQualityPayload
  mqm := .ok sampleMQMResult

/-- A BALANCED-mode request with every inclusion flag set. -/
def sampleRequest : TranslationRequest :=
  { source_text := "Hello world", target_language := "swedish",
    quality_mode := .balanced, include_cultural_analysis := true,
    include_review := true, include_quality_assessment := true,
    include_mqm_analysis := true, include_iso_compliance := true }

/-- A QUALITY-mode request whose caller left include_mqm_analysis false. -/
def qualityNoMqmRequest : TranslationRequest :=
  { sampleRequest with quality_mode := QualityMode.quality,
                       include_mqm_analysis := false }

/-- A QUALITY-mode request with every inclusion flag set. -/
def qualityAllRequest : TranslationRequest :=
  { sampleRequest with quality_mode := QualityMode.quality }

/-- A FAST-mode request whose caller asked for cultural analysis. -/
def fastExtrasRequest : TranslationRequest :=
  { sampleRequest with quality_mode := QualityMode.fast }

/-- A fully successful response used as a batch slot. -/
def sampleOkResponse : TranslationResponse :=
  service_translate sampleRequest oracleAllOk

/-- A batch of five jobs of which the second and the fourth raised. -/
def scenarioJobs :
    List (TranslationRequest × Except String TranslationResponse) :=
  [ (sampleRequest, Except.ok sampleOkResponse),
    (sampleRequest, Except.error "first job failed"),
    (sampleRequest, Except.ok sampleOkResponse),
    (sampleRequest, Except.error "second job failed"),
    (sampleRequest, Except.ok sampleOkResponse) ]

/-- Two concrete MQM errors used to exhibit permutation invariance. -/
def permErrA : MQMError := ⟨"accuracy", "omission", Severity.major⟩

/-- Second concrete MQM error for the permutation witness. -/
def permErrB : MQMError := ⟨"fluency", "spelling", Severity.minor⟩

/-! ## Helper lemmas -/

theorem clampQ_le (lo hi x : ℚ) (h : lo ≤ hi) : clampQ lo hi x ≤ hi :=
  max_le h (min_le_left _ _)

theorem le_clampQ (lo hi x : ℚ) : lo ≤ clampQ lo hi x := le_max_left _ _

/-- The score revalidation of `MQMFramework.analyze` is exactly a clamp to
[0, 100]. -/
theorem validate_eq_clampQ (s : ℚ) : validate_total_score s = clampQ 0 100 s := by
  unfold validate_total_score clampQ
  split_ifs with h1 h2
  · rw [min_eq_left h1.le, max_eq_right] ; norm_num
  · rw [min_eq_right (by linarith), max_eq_left (by linarith)]
  · rw [min_eq_right (by linarith), max_eq_right (by linarith)]

/-- Whatever the external call returns, the stored MQM total_score lies in
[0, 100]. -/
theorem mqm_analyze_score_bounds (ext : ExtResult MQMResult) (w : ℕ) :
    0 ≤ (mqm_analyze ext w).2.total_score
      ∧ (mqm_analyze ext w).2.total_score ≤ 100 := by
  cases ext with
  | ok r =>
    simp only [mqm_analyze, validate_eq_clampQ]
    exact ⟨le_clampQ _ _ _, clampQ_le _ _ _ (by norm_num)⟩
  | fail m =>
    simp [mqm_analyze, mqm_fallback]

/-- Every area score is nonnegative. -/
theorem area_score_nonneg (a : Area) (R : TranslationResults) :
    0 ≤ area_score a R := by
  cases a <;>
    simp only [area_score, evaluate_translation_competence,
      evaluate_quality_assurance, evaluate_project_management,
      evaluate_technical_resources, evaluate_client_requirements] <;>
    · apply le_min _ zero_le_one
      positivity

/-- Every area score is at most one. -/
theorem area_score_le_one (a : Area) (R : TranslationResults) :
    area_score a R ≤ 1 := by
  cases a <;>
    simp only [area_score, evaluate_translation_competence,
      evaluate_quality_assurance, evaluate_project_management,
      evaluate_technical_resources, evaluate_client_requirements] <;>
    exact min_le_right _ _

/-- The five recommendation messages are pairwise distinct. -/
theorem recommendation_inj : ∀ a b : Area,
    recommendation a = recommendation b → a = b := by decide

/-- Every area occurs in the evaluation order. -/
theorem mem_area_order (a : Area) : a ∈ area_order := by cases a <;> decide

/-! ## Claims -/

/-- C1: for every error list E the MQM Score Aggregator returns
total_score = clamp(100 + Σ penalty(e), 0, 100), where each penalty is the
fixed constant of the code's table for the error's
(category, subcategory, severity) triple — the table agrees row by row with
the spec's table, e.g. fluency/punctuation minor -0.1, major -0.5,
critical -2 — and the stored total_score always lies in [0, 100]: the
success path of `MQMFramework.analyze` revalidates it by a clamp to
[0, 100] and the fallback path stores 0. -/
theorem C1_mqm_score_aggregator :
    (∀ E : List MQMError,
      mqm_total_score E = clampQ 0 100 (100 + (E.map penalty).sum)
        ∧ 0 ≤ mqm_total_score E ∧ mqm_total_score E ≤ 100)
    ∧ error_categories "accuracy" "mistranslation" = some (-1, -5, -25)
    ∧ error_categories "accuracy" "omission" = some (-1, -5, -25)
    ∧ error_categories "accuracy" "addition" = some (-1, -5, -25)
    ∧ error_categories "accuracy" "untranslated" = some (-1, -5, -25)
    ∧ error_categories "fluency" "grammar" = some (-0.5, -2, -5)
    ∧ error_categories "fluency" "spelling" = some (-0.25, -1, -5)
    ∧ error_categories "fluency" "punctuation" = some (-0.1, -0.5, -2)
    ∧ error_categories "fluency" "register" = some (-0.5, -2, -5)
    ∧ error_categories "style" "awkward" = some (-0.25, -1, -3)
    ∧ error_categories "style" "unnatural" = some (-0.5, -2, -5)
    ∧ error_categories "style" "inconsistent_style" = some (-0.25, -1, -3)
    ∧ error_categories "terminology" "inconsistent_term" = some (-0.5, -2, -10)
    ∧ error_categories "terminology" "wrong_term" = some (-1, -5, -15)
    ∧ penalty ⟨"fluency", "punctuation", Severity.minor⟩ = -0.1
    ∧ penalty ⟨"fluency", "punctuation", Severity.major⟩ = -0.5
    ∧ penalty ⟨"fluency", "punctuation", Severity.critical⟩ = -2
    ∧ (∀ s : ℚ, validate_total_score s = clampQ 0 100 s)
    ∧ (∀ (ext : ExtResult MQMResult) (w : ℕ),
        0 ≤ (mqm_analyze ext w).2.total_score
          ∧ (mqm_analyze ext w).2.total_score ≤ 100) := by
  refine ⟨fun E => ⟨rfl, le_clampQ _ _ _, clampQ_le _ _ _ (by norm_num)⟩,
    ?_, ?_, ?_, ?_, ?_, ?_, ?_, ?_, ?_, ?_, ?_, ?_, ?_, ?_, ?_, ?_,
    validate_eq_clampQ, mqm_analyze_score_bounds⟩ <;>
    norm_num [error_categories, penalty, severityPick]

/-- C6: the MQM letter grade is a pure step function of total_score — A on
[90, 100], B on [80, 90), C on [70, 80), D on [60, 70), F on [0, 60), with
the boundary values 90, 80, 70, 60 mapping to the higher grade — and
industry compliance holds exactly when total_score is at least 85. -/
theorem C6_mqm_grade_step (s : ℚ) (h0 : 0 ≤ s) (h100 : s ≤ 100) :
    (90 ≤ s → mqm_grade_of s = "A")
    ∧ (80 ≤ s ∧ s < 90 → mqm_grade_of s = "B")
    ∧ (70 ≤ s ∧ s < 80 → mqm_grade_of s = "C")
    ∧ (60 ≤ s ∧ s < 70 → mqm_grade_of s = "D")
    ∧ (s < 60 → mqm_grade_of s = "F")
    ∧ (industry_compliance_of s = true ↔ 85 ≤ s)
    ∧ mqm_grade_of 90 = "A" ∧ mqm_grade_of 80 = "B"
    ∧ mqm_grade_of 70 = "C" ∧ mqm_grade_of 60 = "D" := by
  refine ⟨fun h => ?_, fun h => ?_, fun h => ?_, fun h => ?_, fun h => ?_,
    by simp [industry_compliance_of], by norm_num [mqm_grade_of],
    by norm_num [mqm_grade_of], by norm_num [mqm_grade_of],
    by norm_num [mqm_grade_of]⟩ <;>
    · unfold mqm_grade_of
      split_ifs <;> first | rfl | (exfalso ; first | linarith [h.1, h.2] | linarith)

/-- C6 witness: a score of 95 lies in [0, 100] and is graded A. -/
theorem C6_mqm_grade_step_witness :
    0 ≤ (95 : ℚ) ∧ (95 : ℚ) ≤ 100 ∧ mqm_grade_of 95 = "A" :=
  ⟨by norm_num, by norm_num,
    (C6_mqm_grade_step 95 (by norm_num) (by norm_num)).1 (by norm_num)⟩

/-- C8: the Score Aggregator is a pure function of the error list alone and
its value is invariant under any permutation of the list. -/
theorem C8_score_perm_invariant (E₁ E₂ : List MQMError) (h : E₁.Perm E₂) :
    mqm_total_score E₁ = mqm_total_score E₂ := by
  unfold mqm_total_score
  rw [(h.map penalty).sum_eq]

/-- C8 witness: swapping two concrete errors leaves the score unchanged. -/
theorem C8_score_perm_invariant_witness :
    ([permErrA, permErrB] : List MQMError).Perm [permErrB, permErrA]
      ∧ mqm_total_score [permErrA, permErrB]
          = mqm_total_score [permErrB, permErrA] :=
  ⟨List.Perm.swap permErrB permErrA [],
    C8_score_perm_invariant _ _ (List.Perm.swap permErrB permErrA [])⟩

/-- C2: the Compliance Evaluator returns
overall_score = 100 × Σ (area_score × weight) with the fixed weights
0.25 / 0.25 / 0.20 / 0.15 / 0.15 summing to 1; compliant holds exactly when
overall_score ≥ 85; an area is compliant exactly when its score ≥ 0.85; and
the recommendation text of an area appears in the output exactly when that
area is non-compliant. -/
theorem C2_iso_validate (R : TranslationResults) :
    (iso_validate R).score
        = 100 * (area_order.map fun a => area_score a R * area_weight a).sum
    ∧ area_weight .translation_competence = 0.25
    ∧ area_weight .quality_assurance = 0.25
    ∧ area_weight .project_management = 0.20
    ∧ area_weight .technical_resources = 0.15
    ∧ area_weight .client_requirements = 0.15
    ∧ (area_order.map area_weight).sum = 1
    ∧ ((iso_validate R).compliant = true ↔ 85 ≤ (iso_validate R).score)
    ∧ (∀ a : Area, iso_area_compliant a R = true ↔ 17/20 ≤ area_score a R)
    ∧ (∀ a : Area, recommendation a ∈ (iso_validate R).recommendations
        ↔ area_score a R < 17/20) := by
  refine ⟨by simp [iso_validate, iso_overall_score, mul_comm],
    by norm_num [area_weight], by norm_num [area_weight],
    by norm_num [area_weight], by norm_num [area_weight],
    by norm_num [area_weight], by norm_num [area_order, area_weight],
    by simp [iso_validate, iso_is_compliant],
    fun a => by simp [iso_area_compliant], fun a => ?_⟩
  show recommendation a ∈ iso_recommendations R ↔ area_score a R < 17/20
  constructor
  · intro h
    obtain ⟨b, hb, he⟩ := List.mem_map.mp h
    obtain ⟨-, hp⟩ := List.mem_filter.mp hb
    exact (recommendation_inj b a he) ▸ of_decide_eq_true hp
  · intro h
    exact List.mem_map.mpr ⟨a, List.mem_filter.mpr ⟨mem_area_order a,
      decide_eq_true h⟩, rfl⟩

/-- C2 witness: on the empty results mapping the translation-competence
area scores below 0.85 and its recommendation is emitted. -/
theorem C2_iso_validate_witness :
    area_score Area.translation_competence emptyResults < 17/20
    ∧ recommendation Area.translation_competence
        ∈ (iso_validate emptyResults).recommendations := by
  have h : area_score Area.translation_competence emptyResults < 17/20 := by
    simp [area_score, evaluate_translation_competence, grammar_score,
      cultural_appropriateness, overall_quality, emptyResults]
    norm_num
  exact ⟨h, ((C2_iso_validate emptyResults).2.2.2.2.2.2.2.2.2
    Area.translation_competence).mpr h⟩

/-- C7: each compliance area score is the sum of exactly its listed
predicate increments clamped at 1 — shown literally for
translation_competence (0.40 / 0.35 / 0.25) and client_requirements
(0.40 / 0.35 / 0.25-else-0.15) — and every area score lies in [0, 1]. -/
theorem C7_area_predicates (R : TranslationResults) :
    evaluate_translation_competence R =
      min ((if 85 ≤ grammar_score R then (0.40 : ℚ) else 0)
        + (if cultural_appropriateness R = some "high"
              ∨ cultural_appropriateness R = some "medium"
           then (0.35 : ℚ) else 0)
        + (if 85 ≤ overall_quality R then (0.25 : ℚ) else 0)) 1
    ∧ evaluate_client_requirements R =
      min ((if target_audience_fit R = some "excellent"
              ∨ target_audience_fit R = some "good" then (0.40 : ℚ) else 0)
        + (if cultural_appropriateness R = some "high" then (0.35 : ℚ) else 0)
        + (if 90 ≤ overall_quality R then (0.25 : ℚ)
           else if 85 ≤ overall_quality R then (0.15 : ℚ) else 0)) 1
    ∧ (∀ a : Area, 0 ≤ area_score a R ∧ area_score a R ≤ 1) := by
  refine ⟨?_, ?_, fun a => ⟨area_score_nonneg a R, area_score_le_one a R⟩⟩ <;>
    norm_num [evaluate_translation_competence, evaluate_client_requirements]

/-- C7 witness: the client-requirements score of the empty results mapping
lies in [0, 1]. -/
theorem C7_area_predicates_witness :
    0 ≤ area_score Area.client_requirements emptyResults
    ∧ area_score Area.client_requirements emptyResults ≤ 1 :=
  (C7_area_predicates emptyResults).2.2 Area.client_requirements

/-- C3 counterexample: a QUALITY-mode job whose caller left
include_mqm_analysis false produces no mqm stage result, because QUALITY
mode keeps the inclusion flags as provided — so the quality mode alone does
not fix which stage results are produced. -/
theorem C3_quality_mode_cex :
    qualityNoMqmRequest.quality_mode = QualityMode.quality
    ∧ (service_translate qualityNoMqmRequest oracleAllOk).mqm_analysis = none
    ∧ (service_translate qualityAllRequest oracleAllOk).mqm_analysis.isSome
        = true :=
  ⟨rfl, rfl, rfl⟩

/-- C3 (amended): FAST mode never produces mqm or iso results; BALANCED
mode produces cultural, review and quality_assess results with mqm, iso and
the seventh-agent synthesis absent; QUALITY mode produces mqm exactly when
the request's include_mqm_analysis and include_quality_assessment flags are
both set and iso exactly when include_iso_compliance is set; and a stage
that runs is never marked skipped — its status is ok or fallback. -/
theorem C3_mode_stage_selection (req : TranslationRequest) (o : AgentOutcomes) :
    (req.quality_mode = QualityMode.fast →
      (service_translate req o).mqm_analysis = none
        ∧ (service_translate req o).iso_compliance = none)
    ∧ (req.quality_mode = QualityMode.balanced →
      (service_translate req o).cultural_analysis.isSome = true
        ∧ (service_translate req o).refined_translation.isSome = true
        ∧ (service_translate req o).quality_assessment.isSome = true
        ∧ (service_translate req o).mqm_analysis = none
        ∧ (service_translate req o).iso_compliance = none
        ∧ (service_translate req o).final_translation = none)
    ∧ (req.quality_mode = QualityMode.quality →
      (service_translate req o).mqm_analysis.isSome
          = (req.include_mqm_analysis && req.include_quality_assessment)
        ∧ (service_translate req o).iso_compliance.isSome
          = req.include_iso_compliance)
    ∧ (∀ e : ExtResult TranslatorPayload,
        (translator_translate e).1 ≠ StageStatus.skipped)
    ∧ (∀ e : ExtResult CulturalPayload,
        (cultural_analyze e).1 ≠ StageStatus.skipped)
    ∧ (∀ (t : String) (e : ExtResult ReviewPayload),
        (reviewer_review t e).1 ≠ StageStatus.skipped)
    ∧ (∀ e : ExtResult QualityPayload,
        (assessor_assess e).1 ≠ StageStatus.skipped)
    ∧ (∀ (e : ExtResult MQMResult) (w : ℕ),
        (mqm_analyze e w).1 ≠ StageStatus.skipped) := by
  refine ⟨fun h => ?_, fun h => ?_, fun h => ?_,
    fun e => by cases e <;> simp [translator_translate],
    fun e => by cases e <;> simp [cultural_analyze],
    fun t e => by cases e <;> simp [reviewer_review],
    fun e => by cases e <;> simp [assessor_assess],
    fun e w => by cases e <;> simp [mqm_analyze]⟩
  · cases hm : req.quality_mode <;>
      simp_all [service_translate, override_flags]
  · cases hm : req.quality_mode <;>
      simp_all [service_translate, override_flags]
  · cases hm : req.quality_mode <;>
      simp_all [service_translate, override_flags] <;>
      cases req.include_quality_assessment <;>
      cases req.include_mqm_analysis <;>
      cases req.include_iso_compliance <;> simp

/-- C3 witness: the BALANCED sample job carries cultural, review and
quality-assessment results and no mqm or iso result. -/
theorem C3_mode_stage_selection_witness :
    (service_translate sampleRequest oracleAllOk).cultural_analysis.isSome = true
    ∧ (service_translate sampleRequest oracleAllOk).mqm_analysis = none
    ∧ (service_translate sampleRequest oracleAllOk).iso_compliance = none := by
  have h := (C3_mode_stage_selection sampleRequest oracleAllOk).2.1 rfl
  exact ⟨h.1, h.2.2.2.1, h.2.2.2.2.1⟩

/-- C9 counterexample: a FAST-mode request submitted with
include_cultural_analysis true has that flag overwritten to false by the
quality-mode override at the start of translate — the caller's request
object is mutated beyond appending stage results. -/
theorem C9_request_mutation_cex :
    fastExtrasRequest.include_cultural_analysis = true
    ∧ (override_flags fastExtrasRequest).include_cultural_analysis = false
    ∧ override_flags fastExtrasRequest ≠ fastExtrasRequest := by
  refine ⟨rfl, rfl, ?_⟩
  simp [override_flags, fastExtrasRequest, sampleRequest]

/-- C9 (amended): the quality-mode override never changes the request's
source text, target language or quality mode, and leaves a QUALITY-mode
request entirely unchanged; in FAST and BALANCED modes it overwrites the
five inclusion flags (setting include_review to true) before use. -/
theorem C9_request_mutation_frame (r : TranslationRequest) :
    (override_flags r).source_text = r.source_text
    ∧ (override_flags r).target_language = r.target_language
    ∧ (override_flags r).quality_mode = r.quality_mode
    ∧ (r.quality_mode = QualityMode.quality → override_flags r = r)
    ∧ (r.quality_mode ≠ QualityMode.quality →
        (override_flags r).include_review = true
          ∧ (override_flags r).include_mqm_analysis = false
          ∧ (override_flags r).include_iso_compliance = false) := by
  cases h : r.quality_mode <;> simp [override_flags, h]

/-- C9 witness: a QUALITY-mode request is returned unchanged by the
override. -/
theorem C9_request_mutation_frame_witness :
    qualityAllRequest.quality_mode = QualityMode.quality
    ∧ override_flags qualityAllRequest = qualityAllRequest :=
  ⟨rfl, (C9_request_mutation_frame qualityAllRequest).2.2.2.1 rfl⟩

/-- C5: for every batch of at most ten jobs the coordinator returns exactly
one result slot per job in input order; success_count plus error_count
equals the batch size; error_count counts exactly the jobs whose
orchestration raised; a raising job's slot is a degraded response carrying
the error marker with confidence 0 and the job's own request data; and each
slot is a function of its own job alone, so a failure never affects
sibling jobs. -/
theorem C5_translate_batch
    (jobs : List (TranslationRequest × Except String TranslationResponse))
    (hcap : jobs.length ≤ 10) :
    (translate_batch jobs).results.length = jobs.length
    ∧ (translate_batch jobs).success_count + (translate_batch jobs).error_count
        = jobs.length
    ∧ (translate_batch jobs).error_count
        = (jobs.filter fun j => job_failed j.2).length
    ∧ (∀ i : ℕ, (translate_batch jobs).results[i]?
        = (jobs[i]?).map fun j => batch_slot j.1 j.2)
    ∧ (∀ (req : TranslationRequest) (m : String),
        (batch_slot req (Except.error m)).initial_translation.translation
            = "Translation failed: " ++ m
          ∧ (batch_slot req (Except.error m)).initial_translation.confidence = 0
          ∧ (batch_slot req (Except.error m)).source_text = req.source_text)
    ∧ (∀ (req : TranslationRequest) (resp : TranslationResponse),
        batch_slot req (Except.ok resp) = resp) := by
  refine ⟨by simp [translate_batch], ?_, rfl,
    fun i => by simp [translate_batch],
    fun req m => ⟨rfl, rfl, rfl⟩, fun req resp => rfl⟩
  simp only [translate_batch]
  exact Nat.sub_add_cancel (List.length_filter_le _ _)

/-- C5 witness: the five-job batch with two raising jobs yields five slots,
success_count 3 and error_count 2. -/
theorem C5_translate_batch_witness :
    scenarioJobs.length = 5 ∧ scenarioJobs.length ≤ 10
    ∧ (translate_batch scenarioJobs).results.length = 5
    ∧ (translate_batch scenarioJobs).success_count = 3
    ∧ (translate_batch scenarioJobs).error_count = 2 :=
  ⟨rfl, by norm_num [scenarioJobs],
    (C5_translate_batch scenarioJobs (by norm_num [scenarioJobs])).1.trans rfl,
    rfl, rfl⟩

/-- C4 (code bug): every delegating stage converts an external failure into
a fallback-status default payload, and the translator, cultural-advisor,
reviewer and quality-assessor fallbacks satisfy the payload schemas
declared in models.py; but the MQM fallback payload reports a single error
with category "system", which the models.py MQMError category Literal
rejects — so assembling the MQMAnalysis response model from the fallback
raises instead of completing the job. -/
theorem C4_fallback_schema :
    (∀ m : String,
      (translator_translate (ExtResult.fail m)).1 = StageStatus.fallback
        ∧ translator_schema_ok (translator_fallback m) = true)
    ∧ (∀ m : String,
      (cultural_analyze (ExtResult.fail m)).1 = StageStatus.fallback
        ∧ cultural_schema_ok (cultural_fallback m) = true)
    ∧ (∀ t m : String,
      (reviewer_review t (ExtResult.fail m)).1 = StageStatus.fallback
        ∧ reviewer_schema_ok (reviewer_fallback t m) = true)
    ∧ (∀ m : String,
      (assessor_assess (ExtResult.fail m)).1 = StageStatus.fallback
        ∧ assessor_schema_ok (assessor_fallback m) = true)
    ∧ (∀ (m : String) (w : ℕ),
      (mqm_analyze (ExtResult.fail m) w).1 = StageStatus.fallback
        ∧ (mqm_fallback m w).errors.all mqm_error_schema_ok = false
        ∧ mqm_analysis_schema_ok (mqm_fallback m w) = false)
    ∧ mqm_category_valid "system" = false :=
  ⟨fun m => ⟨rfl, rfl⟩, fun m => ⟨rfl, rfl⟩, fun t m => ⟨rfl, rfl⟩,
    fun m => ⟨rfl, rfl⟩, fun m w => ⟨rfl, rfl, rfl⟩, rfl⟩

/-- C10: whenever the review stage's external call fails, the review result
is a fallback whose final_translation is exactly the initial translation
the reviewer was given, with confidence_improvement 0 and quality grade
F. -/
theorem C10_review_failure_keeps_translation (t m : String) :
    reviewer_review t (ExtResult.fail m)
        = (StageStatus.fallback, reviewer_fallback t m)
    ∧ (reviewer_fallback t m).final_translation = t
    ∧ (reviewer_fallback t m).confidence_improvement = 0
    ∧ (reviewer_fallback t m).quality_grade = "F"
    ∧ (reviewer_fallback t m).changes_made = [] :=
  ⟨rfl, rfl, rfl, rfl, rfl⟩

end TranslationSvc
